import Mathlib

/-!
Verification of the Gethomepage-Tool-Box repository (Python) against its
natural-language specification.  The Python code is shallowly embedded:

* JSON-like Python values are the inductive `Value`;
* Python dicts are ordered association lists `List (String × Value)`
  with Python's insert/overwrite semantics (`dictSet`);
* `str.format_map` with the repository's `SafeDict` subclasses is embedded by
  `parseTemplate` / `evalTItem` / `formatMap`, faithful to CPython for the
  fragment used by the repository: literal text, `\x7b\x7b`/`\x7d\x7d`
  escapes, and replacement fields `\x7bname\x7d` or with bracket indexes;
  positional fields (empty or all-digits name) and malformed fields raise
  as in CPython, while a conversion (`!`), a format spec (`:`) or an
  attribute access (`.`) inside a field is outside the modelled fragment
  and is reported as `PyErr.unsupportedField` (no theorem below depends on
  such a template, and no never-raise theorem covers it);
* raised Python exceptions are `Except PyErr`.
-/

namespace ToolBox

/-- The JSON-like values that flow through the program (Python
`str`/`int`/`bool`/`None`/`dict`/`list`).  Floats never occur in the
verified code paths. -/
inductive Value where
  | str (s : String)
  | int (n : Int)
  | bool (b : Bool)
  | none
  | dict (d : List (String × Value))
  | list (l : List Value)

/-- A Python dict with string keys, as an insertion-ordered association list. -/
abbrev PyDict := List (String × Value)

/-- Python exception classes raised by the embedded code. -/
inductive PyErr where
  | typeError
  | valueError
  | keyError
  | indexError
  | attributeError
  | unsupportedField
deriving DecidableEq, Repr

/-- Dict lookup (`d[k]` / `d.get(k)`): first matching key. -/
def dlookup {α : Type} : List (String × α) → String → Option α
  | [], _ => Option.none
  | (k', v) :: rest, k => if k' = k then some v else dlookup rest k

/-- Dict assignment `d[k] = v`: overwrite in place if the key exists
(keeping its position, as CPython does), else append. -/
def dictSet {α : Type} : List (String × α) → String → α → List (String × α)
  | [], k, v => [(k, v)]
  | (k', v') :: rest, k, v =>
      if k' = k then (k, v) :: rest else (k', v') :: dictSet rest k v

/-- Python `d.get(k, default)`. -/
def pyGetD (d : PyDict) (k : String) (default : Value) : Value :=
  (dlookup d k).getD default

/-- Python truthiness of a `Value`. -/
def pyTruthy : Value → Bool
  | .str s => s ≠ ""
  | .int n => n ≠ 0
  | .bool b => b
  | .none => false
  | .dict d => ¬ d.isEmpty
  | .list l => ¬ l.isEmpty

/-- Python `x or y` (value-returning). -/
def pyOr (a b : Value) : Value := if pyTruthy a then a else b

mutual
/-- Python `repr` of a value (quote-escaping inside strings is not modelled;
no verified code path formats a string that itself contains a quote). -/
def pyRepr : Value → String
  | .str s => "'" ++ s ++ "'"
  | .int n => toString n
  | .bool b => if b then "True" else "False"
  | .none => "None"
  | .dict d => "\x7b" ++ pyReprEntries d ++ "\x7d"
  | .list l => "[" ++ pyReprList l ++ "]"

def pyReprEntries : List (String × Value) → String
  | [] => ""
  | [(k, v)] => "'" ++ k ++ "': " ++ pyRepr v
  | (k, v) :: rest => "'" ++ k ++ "': " ++ pyRepr v ++ ", " ++ pyReprEntries rest

def pyReprList : List Value → String
  | [] => ""
  | [v] => pyRepr v
  | v :: rest => pyRepr v ++ ", " ++ pyReprList rest
end

/-- Python `str()` of a value (what `format(obj, '')` produces). -/
def pyStr : Value → String
  | .str s => s
  | v => pyRepr v

/-- Python `str.strip(chars)`: remove leading and trailing characters drawn from
`cs`, both ends. -/
def pyStripChars (cs : List Char) (s : String) : String :=
  String.mk (((s.data.dropWhile cs.contains).reverse.dropWhile cs.contains).reverse)

/-- The `.strip(' -')` call as used after template substitution. -/
def stripDashSpace (s : String) : String := pyStripChars [' ', '-'] s

/-- If `pat` is a prefix of the list, return the remainder after it. -/
def dropPrefix? : List Char → List Char → Option (List Char)
  | [], l => some l
  | _ :: _, [] => Option.none
  | p :: ps, c :: cs => if p = c then dropPrefix? ps cs else Option.none

/-- Python `str.replace` (replace every non-overlapping occurrence, left to
right).  Scanning is driven by a fuel counter equal to the input length so
the definition is structurally recursive; each step consumes at least one
character, so the fuel never runs out. -/
def replaceGo (pat sub : List Char) : Nat → List Char → List Char
  | 0, l => l
  | _ + 1, [] => []
  | f + 1, c :: rest =>
      match dropPrefix? pat (c :: rest) with
      | some rem => sub ++ replaceGo pat sub f rem
      | Option.none => c :: replaceGo pat sub f rest

/-- Python `str.replace`.  The empty-pattern case never occurs in the
embedded code. -/
def pyReplace (s pat sub : String) : String :=
  if pat.data = [] then s
  else String.mk (replaceGo pat.data sub.data s.data.length s.data)

/-- Python `str.split(sep)` with a non-empty separator, fuel-driven like
`replaceGo`. -/
def splitSepGo (pat : List Char) : Nat → List Char → List Char → List (List Char)
  | 0, acc, l => [acc.reverse ++ l]
  | _ + 1, acc, [] => [acc.reverse]
  | f + 1, acc, c :: rest =>
      match dropPrefix? pat (c :: rest) with
      | some rem => acc.reverse :: splitSepGo pat f [] rem
      | Option.none => splitSepGo pat f (c :: acc) rest

/-- Python `str.split(sep)` for a non-empty separator. -/
def pySplit (s sep : String) : List String :=
  if sep.data = [] then [s]
  else (splitSepGo sep.data s.data.length [] s.data).map String.mk

/-! ### The `str.format_map` fragment -/

/-- The left brace character, `\x7b`. -/
def lbrace : Char := Char.ofNat 123

/-- The right brace character, `\x7d`. -/
def rbrace : Char := Char.ofNat 125

/-- Error-propagating map over a list (a Python `for` loop building a list,
stopping at the first raised exception). -/
def mapME {ε α β : Type} (f : α → Except ε β) : List α → Except ε (List β)
  | [] => .ok []
  | a :: rest =>
      match f a with
      | .error e => .error e
      | .ok b =>
          match mapME f rest with
          | .error e => .error e
          | .ok bs => .ok (b :: bs)

/-- One index access of a replacement field: `[name]` is a string index
unless the text is all digits, in which case it is an integer index — the
rule CPython applies in `formatter_field_name_split`. -/
inductive TIndex where
  | istr (s : String)
  | iint (n : Nat)

/-- One parsed component of a format string: literal text, or a replacement
field `base[i1][i2]...`. -/
inductive TItem where
  | lit (s : String)
  | field (base : String) (idx : List TIndex)

/-- String of digits to a natural number. -/
def digitsToNat (cs : List Char) : Nat :=
  cs.foldl (fun acc c => acc * 10 + (c.toNat - 48)) 0

/-- Classify one index string as CPython does: all-digits means an integer
index, anything else a string index. -/
def mkIndex (cs : List Char) : TIndex :=
  if cs ≠ [] ∧ cs.all Char.isDigit then .iint (digitsToNat cs) else .istr (String.mk cs)

/-- Parse the `[i1][i2]...` tail of a field name: outside a group the next
character must open a bracket (a `.` would start an attribute access,
which is outside the modelled fragment; anything else raises CPython's
"Only '.' or '[' may follow ']'" ValueError); inside a group characters
accumulate — with no nesting — until the first closing bracket, and an
empty group raises ("Empty attribute in format string"). -/
def splitIdxGo : List Char → Option (List Char) → Except PyErr (List TIndex)
  | [], Option.none => .ok []
  | [], some _ => .error .valueError
  | c :: rest, Option.none =>
      if c = '[' then splitIdxGo rest (some [])
      else if c = '.' then .error .unsupportedField
      else .error .valueError
  | c :: rest, some acc =>
      if c = ']' then
        if acc = [] then .error .valueError
        else
          match splitIdxGo rest Option.none with
          | .error e => .error e
          | .ok idxs => .ok (mkIndex acc.reverse :: idxs)
      else splitIdxGo rest (some (c :: acc))

/-- Parse the `[i1][i2]...` tail of a field name. -/
def splitIdx (cs : List Char) : Except PyErr (List TIndex) :=
  splitIdxGo cs Option.none

/-- Split a raw field name into its base key and bracket indexes.  The base
runs up to the first `[` or `.`.  An empty or all-digits base is a
positional field, on which `format_map` raises
`ValueError: Format string contains positional fields`; a `.` after the
base starts an attribute access (`getattr`), which is outside the
modelled fragment. -/
def parseFieldName (cs : List Char) : Except PyErr TItem :=
  let base := cs.takeWhile (fun c => ¬ (c = '[' ∨ c = '.'))
  let rest := cs.dropWhile (fun c => ¬ (c = '[' ∨ c = '.'))
  if base.all Char.isDigit then .error .valueError
  else
    match rest with
    | '.' :: _ => .error .unsupportedField
    | _ =>
        match splitIdx rest with
        | .error e => .error e
        | .ok idxs => .ok (.field (String.mk base) idxs)

/-- Scanner mode for `parseGo`: plain text, just after a lone `\x7b`, just
after a lone `\x7d`, or inside a replacement field with a flag recording
whether the scan is inside a bracket group, plus the accumulated (reversed)
field characters. -/
inductive PMode where
  | lit
  | opened
  | closeSeen
  | field (inBracket : Bool) (acc : List Char)

/-- Scanner for a whole format string, as `str.format_map` reads it: braces
escape by doubling, a lone `\x7b` opens a replacement field whose
characters accumulate until the closing brace; an unterminated field or
stray `\x7d` raises ValueError.  Inside a field, `[` starts a bracket
group that runs — without nesting, as in CPython's MarkupIterator — to
the first `]`, within which every character (including braces) is field
text; outside a group, a `\x7b` raises CPython's
"unexpected '\x7b' in field name" ValueError, and a conversion (`!`) or
format spec (`:`) is outside the modelled fragment. -/
def parseGo : List Char → PMode → Except PyErr (List TItem)
  | [], .lit => .ok []
  | [], .opened => .error .valueError
  | [], .closeSeen => .error .valueError
  | [], .field _ _ => .error .valueError
  | c :: rest, .lit =>
      if c = lbrace then parseGo rest .opened
      else if c = rbrace then parseGo rest .closeSeen
      else
        match parseGo rest .lit with
        | .error e => .error e
        | .ok items => .ok (.lit (String.mk [c]) :: items)
  | c :: rest, .opened =>
      if c = lbrace then
        match parseGo rest .lit with
        | .error e => .error e
        | .ok items => .ok (.lit "\x7b" :: items)
      else if c = rbrace then
        match parseFieldName [] with
        | .error e => .error e
        | .ok item =>
            match parseGo rest .lit with
            | .error e => .error e
            | .ok items => .ok (item :: items)
      else if c = '!' ∨ c = ':' then .error .unsupportedField
      else
        parseGo rest (.field (c = '[') [c])
  | c :: rest, .closeSeen =>
      if c = rbrace then
        match parseGo rest .lit with
        | .error e => .error e
        | .ok items => .ok (.lit "\x7d" :: items)
      else .error .valueError
  | c :: rest, .field inB acc =>
      if inB then
        parseGo rest (.field (c ≠ ']') (c :: acc))
      else if c = rbrace then
        match parseFieldName acc.reverse with
        | .error e => .error e
        | .ok item =>
            match parseGo rest .lit with
            | .error e => .error e
            | .ok items => .ok (item :: items)
      else if c = lbrace then .error .valueError
      else if c = '!' ∨ c = ':' then .error .unsupportedField
      else
        parseGo rest (.field (c = '[') (c :: acc))

/-- Parse a whole format string into literal runs and replacement fields. -/
def parseTemplate (cs : List Char) : Except PyErr (List TItem) :=
  parseGo cs .lit

/-- The two `SafeDict` subclasses defined inside `apply_mapping` and
`apply_activity_mapping`: they differ only in `__missing__`. -/
inductive SafeKind where
  | simple
  | nested

/-- Walk of `apply_activity_mapping.SafeDict.__missing__` over the parts of
a bracketed key: `val = self; for part in parts: ...`. -/
def nestedWalk : Value → List String → Value
  | v, [] => match v with
      | .dict _ => .str ""
      | v' => v'
  | v, p :: ps => match v with
      | .dict d =>
          match dlookup d p with
          | Option.none => .str ""
          | some .none => .str ""
          | some v' => nestedWalk v' ps
      | _ => .str ""

/-- The `__missing__` of the `SafeDict` in `apply_activity_mapping`: a key that
contains `[` and ends with `]` is resolved by a nested walk (CPython's
format parser never passes such a key, so this branch is unreachable
through `format_map`); otherwise the empty string. -/
def missingNested (d : PyDict) (k : String) : Value :=
  if k.data.contains '[' ∧ k.data.getLast? = some ']' then
    nestedWalk (.dict d) (pySplit (pyReplace k "]" "") "[")
  else .str ""

/-- The `__missing__` dispatch for the two SafeDict classes. -/
def safeMissing : SafeKind → PyDict → String → Value
  | .simple, _, _ => .str ""
  | .nested, d, k => missingNested d k

/-- The `get_value` step of `format_map` on a `SafeDict`: dict lookup, falling back to
`__missing__`. -/
def getValue (kind : SafeKind) (d : PyDict) (base : String) : Value :=
  match dlookup d base with
  | some v => v
  | Option.none => safeMissing kind d base

/-- One index access `obj[i]` applied by the format machinery after
`get_value`, with CPython's exception behaviour on each value shape. -/
def applyTIndex (v : Value) (i : TIndex) : Except PyErr Value :=
  match v, i with
  | .dict d, .istr s =>
      match dlookup d s with
      | some v' => .ok v'
      | Option.none => .error .keyError
  | .dict _, .iint _ => .error .keyError
  | .str s, .iint n =>
      match s.data.get? n with
      | some c => .ok (.str (String.mk [c]))
      | Option.none => .error .indexError
  | .str _, .istr _ => .error .typeError
  | .list l, .iint n =>
      match l.get? n with
      | some v' => .ok v'
      | Option.none => .error .indexError
  | .list _, .istr _ => .error .typeError
  | .int _, _ => .error .typeError
  | .bool _, _ => .error .typeError
  | .none, _ => .error .typeError

/-- Evaluate one parsed component of a format string against the record. -/
def evalTItem (kind : SafeKind) (d : PyDict) : TItem → Except PyErr String
  | .lit s => .ok s
  | .field base idx => do
      let v ← idx.foldlM applyTIndex (getValue kind d base)
      .ok (pyStr v)

/-- Evaluation of `template.format_map(SafeDict(item_data))`. -/
def formatMap (kind : SafeKind) (d : PyDict) (template : String) : Except PyErr String := do
  let items ← parseTemplate template.data
  let parts ← mapME (evalTItem kind d) items
  .ok (String.join parts)

/-! ### mapping_manager.py -/

/-- One entry of a `custom_fields` list: a dict `\x7b'name': ..., 'value': ...\x7d`. -/
structure CustomField where
  name : String
  value : Value

/-- A TypeMapping dict from the mappings configuration.  `templates` and
`custom_fields` are optional because `apply_mapping` guards on key
presence (`'templates' not in type_mapping`, `'custom_fields' in
type_mapping`). -/
structure TypeMapping where
  templates : Option (List (String × String))
  fields : List String
  custom_fields : Option (List CustomField)

/-- One source's mapping configuration: the `recently_added` and
`user_activity` sections (each a dict keyed by media type). -/
structure SourceMapping where
  recently_added : List (String × TypeMapping)
  user_activity : List (String × TypeMapping)

/-- A whole mappings configuration (the result of `get_mappings()`),
keyed by source id. -/
abbrev Mappings := List (String × SourceMapping)

/-- Lookup `mappings.get(source, \x7b\x7d)`. -/
def sourceMappingOf (mappings : Mappings) (source : String) : SourceMapping :=
  (dlookup mappings source).getD ⟨[], []⟩

/-- Lookup `mappings.get(source, \x7b\x7d).get('recently_added', \x7b\x7d).get(media_type)`. -/
def lookupRA (mappings : Mappings) (source media_type : String) : Option TypeMapping :=
  dlookup (sourceMappingOf mappings source).recently_added media_type

/-- Lookup `mappings.get(source, \x7b\x7d).get('user_activity', \x7b\x7d).get(mapping_key)`. -/
def lookupUA (mappings : Mappings) (source mapping_key : String) : Option TypeMapping :=
  dlookup (sourceMappingOf mappings source).user_activity mapping_key

/-- The in-place custom-field assignment loop
`for field in type_mapping['custom_fields']: item_data[field['name']] = field['value']`. -/
def applyCustomFields (item_data : PyDict) : Option (List CustomField) → PyDict
  | Option.none => item_data
  | some cfs => cfs.foldl (fun d cf => dictSet d cf.name cf.value) item_data

/-- The template loop shared by both apply functions:
`output[key] = template.format_map(SafeDict(item_data)).strip(' -')`. -/
def evalTemplates (kind : SafeKind) (d : PyDict) :
    List (String × String) → Except PyErr PyDict
  | [] => .ok []
  | (k, t) :: rest => do
      let s ← formatMap kind d t
      let out ← evalTemplates kind d rest
      .ok ((k, .str (stripDashSpace s)) :: out)

/-- The fallback of `apply_mapping` when no usable TypeMapping exists:
`\x7b'title': item_data.get('title', item_data.get('name', 'Unknown Title'))\x7d`. -/
def raFallback (item_data : PyDict) : PyDict :=
  [("title", pyGetD item_data "title" (pyGetD item_data "name" (.str "Unknown Title")))]

/-- Embedding of `mapping_manager.apply_mapping(item_data, source, media_type)`.  The
first component of the result is the (possibly mutated) `item_data` —
the Python function mutates its argument in place when custom fields are
configured; the second is the returned dict, or the raised exception. -/
def apply_mapping (mappings : Mappings) (item_data : PyDict) (source media_type : String) :
    PyDict × Except PyErr PyDict :=
  match lookupRA mappings source media_type with
  | Option.none => (item_data, .ok (raFallback item_data))
  | some tm =>
      match tm.templates with
      | Option.none => (item_data, .ok (raFallback item_data))
      | some templates =>
          let item2 := applyCustomFields item_data tm.custom_fields
          (item2, evalTemplates .simple item2 templates)

/-- The media-type determination at the top of `apply_activity_mapping`:
`item_data.get('media_type') or item_data.get('Type')`, then the Jellystat
inference `'Episode' if item_data.get('SeriesName') else 'Movie'` when the
source is jellystat and the type is falsy. -/
def activityMediaType (item_data : PyDict) (source : String) : Value :=
  let mt := pyOr (pyGetD item_data "media_type" .none) (pyGetD item_data "Type" .none)
  if source = "jellystat" ∧ ¬ pyTruthy mt then
    if pyTruthy (pyGetD item_data "SeriesName" .none) then .str "Episode" else .str "Movie"
  else mt


/-- The composite mapping key: `f'activity_\x7bmedia_type\x7d'` for
now-playing, else `sub_type.replace('_activity', f'_\x7bmedia_type\x7d')`. -/
def activityKey (media_type : Value) (sub_type : String) : String :=
  if sub_type = "activity" then "activity_" ++ pyStr media_type
  else pyReplace sub_type "_activity" ("_" ++ pyStr media_type)

/-- The fallback of `apply_activity_mapping` when no TypeMapping is found:
`.get`-with-default chains over `LastWatched`/`Name`/`title` and
`UserName`/`user`. -/
def uaFallback (item_data : PyDict) : PyDict :=
  [("title", pyGetD item_data "LastWatched"
      (pyGetD item_data "Name" (pyGetD item_data "title" (.str "")))),
   ("user", pyGetD item_data "UserName" (pyGetD item_data "user" (.str "")))]

/-- Embedding of `mapping_manager.apply_activity_mapping(item_data, source, sub_type)`.
As for `apply_mapping`, the first component is the possibly mutated
`item_data` and the second the returned dict or raised exception. -/
def apply_activity_mapping (mappings : Mappings) (item_data : PyDict)
    (source sub_type : String) : PyDict × Except PyErr PyDict :=
  let media_type := activityMediaType item_data source
  let mapping_key := activityKey media_type sub_type
  match lookupUA mappings source mapping_key with
  | Option.none => (item_data, .ok (uaFallback item_data))
  | some tm =>
      match tm.templates with
      | Option.none => (item_data, .ok (uaFallback item_data))
      | some templates =>
          let item2 := applyCustomFields item_data tm.custom_fields
          (item2, evalTemplates .nested item2 templates)

/-- Shorthand for building a TypeMapping with all three keys present, as
every entry of `get_default_mappings` has. -/
def mkTM (templates : List (String × String)) (fields : List String) : TypeMapping :=
  { templates := some templates, fields := fields, custom_fields := some [] }

/-- Embedding of `mapping_manager.get_default_mappings()`: the built-in mapping
configuration used when no `mappings.yaml` exists. -/
def defaultMappings : Mappings :=
  [("tautulli",
    { recently_added :=
        [("movie", mkTM [("title", "{title}")]
            ["title", "year", "originally_available_at", "media_type", "grandparent_title", "parent_title"]),
         ("episode", mkTM [("title", "{grandparent_title} - S{parent_media_index}E{media_index} - {title}")]
            ["title", "year", "originally_available_at", "media_type", "grandparent_title", "parent_title", "parent_media_index", "media_index"]),
         ("album", mkTM [("title", "{parent_title} - {title}")]
            ["title", "year", "originally_available_at", "media_type", "parent_title"])],
      user_activity :=
        [("activity_episode", mkTM
            [("title", "{grandparent_title} - S{parent_media_index}E{media_index} {view_offset_hhmmss} / {duration_hhmmss}"),
             ("user", "{user} ({status}) {status_dot}")]
            ["user", "friendly_name", "title", "grandparent_title", "parent_title", "state", "platform", "device", "player", "progress_percent", "status", "view_offset_hhmmss", "duration_hhmmss", "status_dot"]),
         ("activity_movie", mkTM
            [("title", "{title} {view_offset_hhmmss} / {duration_hhmmss}"),
             ("user", "{user} ({status}) {status_dot}")]
            ["user", "friendly_name", "title", "year", "state", "platform", "device", "player", "progress_percent", "status", "view_offset_hhmmss", "duration_hhmmss", "status_dot"]),
         ("last_played_episode", mkTM
            [("title", "{grandparent_title} - S{parent_media_index}E{media_index} - {title}"),
             ("user", "{user} ({status}) {status_dot}")]
            ["user", "friendly_name", "title", "grandparent_title", "parent_title", "stopped", "stopped_formatted", "platform", "device", "player", "status", "status_dot"]),
         ("last_played_movie", mkTM
            [("title", "{title} ({year})"),
             ("user", "{user} ({status}) {status_dot}")]
            ["user", "friendly_name", "title", "year", "stopped", "stopped_formatted", "platform", "device", "player", "status", "status_dot"]),
         ("last_played_track", mkTM
            [("title", "{grandparent_title} - {title}"),
             ("user", "{user} ({status}) {status_dot}")]
            ["user", "friendly_name", "title", "grandparent_title", "parent_title", "stopped", "stopped_formatted", "platform", "device", "player", "status", "status_dot"])] }),
   ("jellystat",
    { recently_added :=
        [("Movie", mkTM [("title", "{Name}")] ["Name"]),
         ("Episode", mkTM [("title", "{SeriesName} - S{SeasonNumber}E{EpisodeNumber} - {Name}")]
            ["Name", "SeriesName", "SeasonNumber", "EpisodeNumber"]),
         ("Audio", mkTM [("title", "{Name}")] ["Name"]),
         ("Book", mkTM [("title", "{Name}")] ["Name", "BookName", "Path"]),
         ("MusicVideo", mkTM [("title", "{Name}")] ["Name", "Artists"]),
         ("HomeVideo", mkTM [("title", "{Name}")] ["Name", "Path"]),
         ("Photo", mkTM [("title", "{Name}")] ["Name", "Path"]),
         ("BoxSet", mkTM [("title", "{Name}")] ["Name"])],
      user_activity :=
        [("activity_Episode", mkTM
            [("title", "{SeriesName} - S{ParentIndexNumber}E{IndexNumber} {PositionTicks_hhmmss}/{RunTimeTicks_hhmmss}"),
             ("user", "{UserName} ({status}) {status_dot}")]
            ["UserName", "Client", "DeviceName", "Name", "SeriesName", "IsPaused", "PlayMethod", "status", "CompletionPercentage", "IndexNumber", "ParentIndexNumber", "PositionTicks_hhmmss", "RunTimeTicks_hhmmss", "LastWatched", "CommunityRating", "OfficialRating", "ProductionYear", "Container", "VideoCodec", "AudioCodec", "LastClient", "status_dot"]),
         ("activity_Movie", mkTM
            [("title", "{Name} {PositionTicks_hhmmss}/{RunTimeTicks_hhmmss}"),
             ("user", "{UserName} ({status}) {status_dot}")]
            ["UserName", "Client", "DeviceName", "Name", "IsPaused", "PlayMethod", "status", "PositionTicks_hhmmss", "RunTimeTicks_hhmmss", "CommunityRating", "OfficialRating", "ProductionYear", "Container", "VideoCodec", "AudioCodec", "CompletionPercentage", "LastClient", "status_dot"]),
         ("last_played_Episode", mkTM
            [("title", "{LastWatched}"),
             ("user", "{UserName} ({status}) {status_dot}")]
            ["UserName", "LastWatched", "LastActivityDate", "LastActivityDate_formatted", "LastClient", "TotalPlays", "TotalWatchTime", "status", "status_dot", "LastActivityDate_formatted"]),
         ("last_played_Movie", mkTM
            [("title", "{LastWatched}"),
             ("user", "{UserName} ({status}) {status_dot}")]
            ["UserName", "LastWatched", "LastActivityDate", "LastActivityDate_formatted", "LastClient", "TotalPlays", "TotalWatchTime", "status", "status_dot", "LastActivityDate_formatted"])] }),
   ("audiobookshelf",
    { recently_added :=
        [("book", mkTM [("title", "{authorName} - {title}")]
            ["title", "subtitle", "authorName", "narratorName", "seriesName", "genre", "publishedYear", "publisher", "description", "duration", "numChapters", "numTracks", "mediaType", "path"])],
      user_activity := [] })]

/-! ### app.py -/

/-- Python `int(v)` applied to a cached JSON value. -/
def pyInt : Value → Except PyErr Int
  | .int n => .ok n
  | .bool b => .ok (if b then 1 else 0)
  | .str s =>
      match s.trim.toInt? with
      | some n => .ok n
      | Option.none => .error .valueError
  | .none => .error .typeError
  | .dict _ => .error .typeError
  | .list _ => .error .typeError

/-- One library's slot in a cached source snapshot:
`\x7b'items': [...], 'counts': \x7b...\x7d\x7d`. -/
structure LibData where
  items : List PyDict
  counts : PyDict

/-- A cached snapshot for one source: a dict keyed by library name. -/
abbrev SourceData := List (String × LibData)

/-! #### The background refresh loop (`update_cache_in_background`) -/

/-- A state signature, as built by the `_get_*_library_state` fetchers:
a dict from library/section id to a count. -/
abbrev StateSig := List (String × Int)

/-- Python `==` on two state-signature dicts: order-insensitive key/value
comparison. -/
def sigDictEq (a b : StateSig) : Bool :=
  a.all (fun p => dlookup b p.1 = some p.2) ∧ b.all (fun p => dlookup a p.1 = some p.2)

/-- Python `current_state != last_state` (negated), where `last_state` may
be `None` (the initial state fetch may have failed). -/
def sigEq : Option StateSig → Option StateSig → Bool
  | some a, some b => sigDictEq a b
  | Option.none, Option.none => true
  | _, _ => false

/-- The per-source slice of `_all_data_cache` together with the loop
variable `last_state`. -/
structure LoopState where
  lastState : Option StateSig
  cacheData : Option SourceData

/-- One iteration of the `while True` body of `update_cache_in_background`
for one source.  `fetchState` is the outcome of `state_fetcher()` (`none`
models both a failed fetch, which the fetcher turns into `None`);
`fetchAll` is the outcome `data_fetcher()` would have if called — it is
consulted only on the change-detection branch.  The second component
records whether `data_fetcher()` was invoked in this cycle.  On a
`fetch_all` exception the `except` clause logs and the loop continues with
everything unchanged. -/
def updateCacheStep (fetchState : Option StateSig) (fetchAll : Except Unit SourceData)
    (s : LoopState) : LoopState × Bool :=
  match fetchState with
  | Option.none => (s, false)
  | some cur =>
      if ¬ cur.isEmpty ∧ ¬ sigEq (some cur) s.lastState then
        match fetchAll with
        | .ok d => ({ lastState := some cur, cacheData := some d }, true)
        | .error _ => (s, true)
      else (s, false)

/-- The whole loop run over a finite trace of poll outcomes, returning the
final state and how many times `data_fetcher()` was invoked. -/
def runLoop : List (Option StateSig × Except Unit SourceData) → LoopState → LoopState × Nat
  | [], s => (s, 0)
  | (fs, fa) :: rest, s =>
      let (s', invoked) := updateCacheStep fs fa s
      let (sEnd, n) := runLoop rest s'
      (sEnd, (if invoked then 1 else 0) + n)

/-! #### The per-source data fetchers (`_fetch_all_*_concurrently`) -/

/-- A Tautulli library row from `get_libraries` (the fields
`_fetch_all_tautulli_data_concurrently` reads; `lib['section_id']` and
`lib['section_name']` are accessed with mandatory-key indexing, so they are
structure fields). -/
structure TautLib where
  section_id : String
  section_name : String
  section_type : String
  count : Value
  parent_count : Value
  child_count : Value

/-- The counts dict built per Tautulli library from its section type. -/
def tautCounts (lib : TautLib) : PyDict :=
  if lib.section_type = "show" then
    [("Shows", lib.count), ("Seasons", lib.parent_count), ("Episodes", lib.child_count)]
  else if lib.section_type = "movie" then [("Movies", lib.count)]
  else if lib.section_type = "artist" then
    [("Artists", lib.count), ("Albums", lib.parent_count)]
  else []

/-- Step 2 of the Tautulli fetcher: prepare `data_by_library` with empty
item lists. -/
def tautBase (libs : List TautLib) : SourceData :=
  libs.foldl (fun d lib => dictSet d lib.section_name ⟨[], tautCounts lib⟩) []

/-- Assignment `data_by_library[name]['items'] = items`: replace the items
of the entry (entries) with the given key, in place. -/
def setItems : SourceData → String → List PyDict → SourceData
  | [], _, _ => []
  | (a, e) :: rest, k, items =>
      if a = k then (a, { e with items := items }) :: setItems rest k items
      else (a, e) :: setItems rest k items

/-- Embedding of `_fetch_all_tautulli_data_concurrently`, given the list of libraries
from the initial `get_libraries` call and an oracle `fetchRA` for the
per-library `get_recently_added` request chain.  The inner
`fetch_for_library` has no exception handler, so a per-library failure
propagates out of the iteration over `executor.map` results and the whole
fetch raises. -/
def fetchAllTautulli (libs : List TautLib)
    (fetchRA : TautLib → Except Unit (List PyDict)) : Except Unit SourceData := do
  let base := tautBase libs
  let results ← mapME (fun lib => (fetchRA lib).map (fun items => (lib.section_name, items))) libs
  .ok (results.foldl
    (fun d p => if (dlookup d p.1).isSome then setItems d p.1 p.2 else d) base)

/-- A Jellystat library row (`lib['Id']`, `lib.get('Name')`; a missing or
null name is modelled as the empty string, which is falsy exactly as the
code treats it). -/
structure JellyLib where
  jid : String
  name : String

/-- A Jellystat `getLibraryOverview` stats row (fields read with `.get`,
defaulting to `None`). -/
structure JellyStatRow where
  sid : String
  collectionType : String
  libraryCount : Value
  seasonCount : Value
  episodeCount : Value

/-- The counts dict for one Jellystat library:
`next((s for s in stats if s['Id'] == lib.get('Id')), None)` and the
collection-type dispatch. -/
def jellyCountsFor (stats : List JellyStatRow) (lib : JellyLib) : PyDict :=
  match stats.find? (fun s => s.sid = lib.jid) with
  | Option.none => []
  | some st =>
      if st.collectionType = "tvshows" then
        [("Shows", st.libraryCount), ("Seasons", st.seasonCount), ("Episodes", st.episodeCount)]
      else if st.collectionType = "movies" then [("Movies", st.libraryCount)]
      else if st.collectionType = "music" then [("Tracks", st.libraryCount)]
      else []

/-- The `data_by_library` skeleton built by the Jellystat fetcher (only
libraries with a truthy name get an entry). -/
def jellyBase (libs : List JellyLib) (stats : List JellyStatRow) : SourceData :=
  libs.foldl
    (fun d lib =>
      if lib.name ≠ "" then dictSet d lib.name ⟨[], jellyCountsFor stats lib⟩ else d) []

/-- The per-library items for Jellystat: `fetch_for_library` catches any
exception and returns an empty list for that library. -/
def jellyItemsFor (fetchRA : JellyLib → Except Unit (List PyDict)) (lib : JellyLib) :
    List PyDict :=
  match fetchRA lib with
  | .ok items => items
  | .error _ => []

/-- Embedding of `_fetch_all_jellystat_data_concurrently`, given the libraries and stats
from the initial calls and an oracle for the per-library
`getRecentlyAdded` request chain.  Per-library failures are isolated by the
`try/except` inside `fetch_for_library`; the result for a failed (or
empty, which is falsy) fetch leaves the initialized empty item list. -/
def fetchAllJellystat (libs : List JellyLib) (stats : List JellyStatRow)
    (fetchRA : JellyLib → Except Unit (List PyDict)) : SourceData :=
  let base := jellyBase libs stats
  let results := libs.map (fun lib => (lib.name, jellyItemsFor fetchRA lib))
  results.foldl
    (fun d p =>
      if (dlookup d p.1).isSome ∧ ¬ p.2.isEmpty then setItems d p.1 p.2 else d) base

/-- An Audiobookshelf library row (`library['id']`, `library.get('name')`
with a missing name modelled as the falsy empty string). -/
structure AbsLib where
  aid : String
  name : String

/-- The outcome of the stats/items request pair for one Audiobookshelf
library: `(totalItems, totalAuthors, items)` as extracted from the two
JSON responses (with the `.get` defaults applied). -/
abbrev AbsFetch := AbsLib → Except Unit (Value × Value × List PyDict)

/-- Embedding of `fetch_data_for_library`: `None` row for a falsy library name, counts
and items on success, and `(name, [], \x7b\x7d)` when the `try` fails. -/
def absRowFor (f : AbsFetch) (lib : AbsLib) : Option (String × List PyDict × PyDict) :=
  if lib.name = "" then Option.none
  else
    match f lib with
    | .ok (ti, ta, items) => some (lib.name, items, [("Books", ti), ("Authors", ta)])
    | .error _ => some (lib.name, [], [])

/-- Embedding of `_fetch_all_audiobookshelf_data_concurrently`, given the library list
from the initial call and the per-library oracle.  Per-library failures
are isolated by the `try/except` inside `fetch_data_for_library`. -/
def fetchAllAudiobookshelf (libs : List AbsLib) (f : AbsFetch) : SourceData :=
  libs.foldl
    (fun d lib =>
      match absRowFor f lib with
      | Option.none => d
      | some (name, items, counts) => dictSet d name ⟨items, counts⟩) []

/-! #### The read-time item processors and endpoints -/

/-- A `.get` result coerced to the string used as a mapping key
(`item.get('Type', '')` / `item.get('media_type', '')`).  The claims'
records carry string type fields; a non-string value is modelled as the
empty string, which matches no mapping key, the same branch a non-string
key takes in Python. -/
def strKey : Value → String
  | .str s => s
  | _ => ""

/-- Embedding of `_process_jellystat_items`.  `parseIso` is an oracle for
`int(datetime.fromisoformat(s.replace('Z', '+00:00')).timestamp())`; it is
consulted only when `DateCreated` is a truthy string, and a truthy
non-string raises (`.replace` on a non-string).  Note that the whole
`apply_mapping` return dict is stored under `'title'`. -/
def processJellystatItems (mappings : Mappings) (parseIso : String → Int)
    (items : List PyDict) : Except PyErr (List PyDict) :=
  mapME (fun item => do
    let r := apply_mapping mappings item "jellystat" (strKey (pyGetD item "Type" (.str "")))
    let display_title ← r.2
    let addedAtStr := pyGetD r.1 "DateCreated" .none
    let added_at_ts ←
      if pyTruthy addedAtStr then
        match addedAtStr with
        | .str s => Except.ok (parseIso s)
        | _ => Except.error .attributeError
      else Except.ok 0
    .ok [("title", .dict display_title), ("added_at", .int added_at_ts)]) items

/-- The per-item body of the Tautulli branch of `get_added`:
`\x7b'title': apply_mapping(...), 'added_at': int(item.get('added_at', 0))\x7d`.
`added_at` is read after `apply_mapping` has (possibly) mutated the item. -/
def processTautulliItems (mappings : Mappings) (items : List PyDict) :
    Except PyErr (List PyDict) :=
  mapME (fun item => do
    let r := apply_mapping mappings item "tautulli" (strKey (pyGetD item "media_type" (.str "")))
    let formatted_title ← r.2
    let ts ← pyInt (pyGetD r.1 "added_at" (.int 0))
    .ok [("title", .dict formatted_title), ("added_at", .int ts)]) items

/-- Access `v.get(k, default)` on a value that must be a dict (`media.get`,
raising AttributeError otherwise). -/
def asDict : Value → Except PyErr PyDict
  | .dict d => .ok d
  | _ => .error .attributeError

/-- Merge `\x7b**a, **b\x7d` / sequential dict update. -/
def dictUpdate (a b : PyDict) : PyDict :=
  b.foldl (fun d p => dictSet d p.1 p.2) a

/-- Expression `genres[0] if genres else ''` where `genres = metadata.get('genres', [])`.
A truthy non-list is outside the modelled fragment (the API returns a
list) and maps to TypeError. -/
def firstGenre (v : Value) : Except PyErr Value :=
  if pyTruthy v then
    match v with
    | .list (g :: _) => .ok g
    | _ => .error .typeError
  else .ok (.str "")

/-- Embedding of `_process_audiobookshelf_items`. -/
def processAudiobookshelfItems (mappings : Mappings) (items : List PyDict) :
    Except PyErr (List PyDict) :=
  mapME (fun item => do
    let media ← asDict (pyGetD item "media" (.dict []))
    let metadata ← asDict (pyGetD media "metadata" (.dict []))
    let flattened := dictUpdate (dictUpdate item media) metadata
    let genre ← firstGenre (pyGetD metadata "genres" (.list []))
    let flattened2 := dictSet flattened "genre" genre
    let r := apply_mapping mappings flattened2 "audiobookshelf" "book"
    let display_title ← r.2
    let ts ← pyInt (pyGetD item "addedAt" (.int 0))
    .ok [("title", .dict display_title), ("added_at", .int (Int.fdiv ts 1000))]) items

/-- A response body from the two cached read endpoints. -/
inductive Body where
  | err (msg : String)
  | countsB (d : List (String × PyDict))
  | addedB (d : List (String × List PyDict))

/-- Embedding of `GET /api/counts`: the `source` parameter (absent or empty is falsy),
the cache lookup, and the counts projection.  Returns (status, body). -/
def getCounts (cache : List (String × SourceData)) (source : Option String) :
    Nat × Body :=
  match source with
  | Option.none => (400, .err "A 'source' query parameter is required.")
  | some s =>
      if s = "" then (400, .err "A 'source' query parameter is required.")
      else
        match dlookup cache s with
        | Option.none =>
            (503, .err "Service is starting, data is being cached. Please try again.")
        | some data =>
            (200, .countsB (data.map (fun p => (p.1, [("counts", Value.dict p.2.counts)]))))

/-- The per-library processing dispatch of `get_added` (after the
`[:count]` truncation), per source id. -/
def processForSource (mappings : Mappings) (parseIso : String → Int) (s : String)
    (raw : List PyDict) : Except PyErr (List PyDict) :=
  if s = "tautulli" then processTautulliItems mappings raw
  else if s = "jellystat" then processJellystatItems mappings parseIso raw
  else if s = "audiobookshelf" then processAudiobookshelfItems mappings raw
  else .ok raw

/-- Embedding of `GET /api/added` (without the optional date-format rewriting pass,
which only reformats `added_at` fields of the already-built response and
is irrelevant to the verified properties).  An exception while processing
becomes a 500, as an unhandled exception does under Flask. -/
def getAdded (mappings : Mappings) (parseIso : String → Int)
    (cache : List (String × SourceData)) (source : Option String) (count : Nat) :
    Nat × Body :=
  match source with
  | Option.none => (400, .err "A 'source' query parameter is required.")
  | some s =>
      if s = "" then (400, .err "A 'source' query parameter is required.")
      else
        match dlookup cache s with
        | Option.none =>
            (503, .err "Service is starting, data is being cached. Please try again.")
        | some data =>
            match mapME (fun p =>
                (processForSource mappings parseIso s (p.2.items.take count)).map
                  (fun its => (p.1, its))) data with
            | .ok processed => (200, .addedB processed)
            | .error _ => (500, .err "Internal Server Error")

/-! ### Generic association-list lemmas -/

/-! ### Definitions used by individual claims -/

/-- A jellystat activity mapping whose title template uses the bracket
syntax the code's docstring advertises. -/
def cfgNestedUA : Mappings :=
  [("jellystat",
    { recently_added := [],
      user_activity :=
        [("activity_Movie", { templates := some [("title", "{user[name]}")], fields := [],
                              custom_fields := some [] })] })]

/-- The example configuration of the claim: a `\x7ba\x7d - \x7bb\x7d` title
template. -/
def cfgAB : Mappings :=
  [("tautulli",
    { recently_added :=
        [("movie", { templates := some [("title", "{a} - {b}")], fields := [],
                     custom_fields := some [] })],
      user_activity := [] })]

/-- The library entry produced by the isolated Jellystat/Audiobookshelf
per-library fetch, success or failure. -/
def absEntryFor (f : AbsFetch) (lib : AbsLib) : LibData :=
  match f lib with
  | .ok (ti, ta, items) => ⟨items, [("Books", ti), ("Authors", ta)]⟩
  | .error _ => ⟨[], []⟩

/-- Two concrete Tautulli libraries for the counterexample run. -/
def tlibMovies : TautLib := ⟨"1", "Movies", "movie", .int 10, .none, .none⟩

/-- Second concrete Tautulli library. -/
def tlibShows : TautLib := ⟨"2", "Shows", "show", .int 5, .int 7, .int 9⟩

/-- The activity fallback as claim C7 words it: Python `or`-chains
(truthiness-based) over `LastWatched`/`Name`/`title` and
`UserName`/`user`. -/
def uaFallbackSpec (item : PyDict) : PyDict :=
  [("title", pyOr (pyOr (pyOr (pyGetD item "LastWatched" .none)
      (pyGetD item "Name" .none)) (pyGetD item "title" .none)) (.str "")),
   ("user", pyOr (pyOr (pyGetD item "UserName" .none) (pyGetD item "user" .none)) (.str ""))]

/-- The record of the C7 counterexample: `LastWatched` present but empty. -/
def c7record : PyDict :=
  [("LastWatched", .str ""), ("Name", .str "Song"), ("UserName", .str "Bob")]

theorem dlookup_dictSet_self {α : Type} (d : List (String × α)) (k : String) (v : α) :
    dlookup (dictSet d k v) k = some v := by
  induction d with
  | nil => simp [dictSet, dlookup]
  | cons p rest ih =>
      by_cases h : p.1 = k
      · simp [dictSet, h, dlookup]
      · simp only [dictSet]
        rw [if_neg (by exact h)]
        simp [dlookup, h, ih]

theorem dlookup_dictSet_ne {α : Type} (d : List (String × α)) (k k' : String) (v : α)
    (h : k' ≠ k) : dlookup (dictSet d k v) k' = dlookup d k' := by
  induction d with
  | nil =>
      simp only [dictSet, dlookup]
      rw [if_neg (Ne.symm h)]
  | cons p rest ih =>
      by_cases hp : p.1 = k
      · simp only [dictSet]
        rw [if_pos hp]
        simp only [dlookup, hp]
        rw [if_neg (Ne.symm h), if_neg (Ne.symm h)]
      · simp only [dictSet]
        rw [if_neg hp]
        simp only [dlookup]
        by_cases hk' : p.1 = k'
        · simp [hk']
        · simp [hk', ih]

theorem applyCustomFields_lookup_notmem (item : PyDict) (cfs : List CustomField)
    (k : String) (h : k ∉ cfs.map CustomField.name) :
    dlookup (applyCustomFields item (some cfs)) k = dlookup item k := by
  induction cfs generalizing item with
  | nil => simp [applyCustomFields]
  | cons cf rest ih =>
      simp only [List.map_cons, List.mem_cons, not_or] at h
      have step : applyCustomFields item (some (cf :: rest)) =
          applyCustomFields (dictSet item cf.name cf.value) (some rest) := by
        simp [applyCustomFields]
      rw [step, ih (dictSet item cf.name cf.value) h.2,
        dlookup_dictSet_ne _ _ _ _ h.1]

theorem applyCustomFields_lookup_mem (item : PyDict) (cfs : List CustomField)
    (hnd : (cfs.map CustomField.name).Nodup) (cf : CustomField) (hm : cf ∈ cfs) :
    dlookup (applyCustomFields item (some cfs)) cf.name = some cf.value := by
  induction cfs generalizing item with
  | nil => cases hm
  | cons cf0 rest ih =>
      have step : applyCustomFields item (some (cf0 :: rest)) =
          applyCustomFields (dictSet item cf0.name cf0.value) (some rest) := by
        simp [applyCustomFields]
      simp only [List.map_cons, List.nodup_cons] at hnd
      rcases List.mem_cons.mp hm with h0 | hrest
      · subst h0
        rw [step, applyCustomFields_lookup_notmem _ _ _ hnd.1,
          dlookup_dictSet_self]
      · rw [step]
        exact ih _ hnd.2 hrest

/-- Claim C10: the apply functions mutate the caller's record exactly by
assigning each configured custom field (and only when a TypeMapping with
templates was matched); with distinct custom-field names each field's
configured value lands in the record (overwriting any same-named raw
field), every other key is untouched, and with no match the record is
returned unmodified. -/
theorem C10_custom_fields_mutation
    (mappings : Mappings) (item : PyDict) (source media_type sub_type : String) :
    ((apply_mapping mappings item source media_type).1 =
        match lookupRA mappings source media_type with
        | some tm =>
            (match tm.templates with
             | some _ => applyCustomFields item tm.custom_fields
             | Option.none => item)
        | Option.none => item) ∧
    ((apply_activity_mapping mappings item source sub_type).1 =
        match lookupUA mappings source
            (activityKey (activityMediaType item source) sub_type) with
        | some tm =>
            (match tm.templates with
             | some _ => applyCustomFields item tm.custom_fields
             | Option.none => item)
        | Option.none => item) ∧
    (∀ cfs k, k ∉ cfs.map CustomField.name →
        dlookup (applyCustomFields item (some cfs)) k = dlookup item k) ∧
    (∀ cfs, (cfs.map CustomField.name).Nodup →
        ∀ cf ∈ cfs, dlookup (applyCustomFields item (some cfs)) cf.name = some cf.value) ∧
    applyCustomFields item Option.none = item := by
  refine ⟨?_, ?_, ?_, ?_, rfl⟩
  · simp only [apply_mapping]
    cases lookupRA mappings source media_type with
    | none => rfl
    | some tm => cases htm : tm.templates with
        | none => simp [htm]
        | some ts => simp [htm]
  · simp only [apply_activity_mapping]
    cases lookupUA mappings source (activityKey (activityMediaType item source) sub_type) with
    | none => rfl
    | some tm => cases htm : tm.templates with
        | none => simp [htm]
        | some ts => simp [htm]
  · exact fun cfs k h => applyCustomFields_lookup_notmem item cfs k h
  · exact fun cfs hnd cf hm => applyCustomFields_lookup_mem item cfs hnd cf hm

/-- Witness for C10: a concrete custom field is written into the record,
and an unrelated key is preserved. -/
theorem C10_witness :
    dlookup (applyCustomFields [("x", Value.str "1")] (some [⟨"cf", Value.str "v"⟩])) "cf"
        = some (Value.str "v") ∧
    dlookup (applyCustomFields [("x", Value.str "1")] (some [⟨"cf", Value.str "v"⟩])) "x"
        = dlookup [("x", Value.str "1")] "x" := by
  have h := C10_custom_fields_mutation [] [("x", Value.str "1")] "s" "m" "a"
  refine ⟨h.2.2.2.1 [⟨"cf", Value.str "v"⟩] (by simp) ⟨"cf", Value.str "v"⟩ (by simp), ?_⟩
  exact h.2.2.1 [⟨"cf", Value.str "v"⟩] "x" (by simp)

/-! ### Claim C4 -/

/-- Claim C4 (code bug): with template `\x7buser[name]\x7d`, resolution
yields `"Bob"` when both segments exist and are nested containers, but with
`\x7b"user": None\x7d` it raises `TypeError` (CPython: `None` is not
subscriptable) instead of resolving to the empty string — and likewise when
`user` is absent (string indexing) or not a container.  The nested-key
branch of `SafeDict.__missing__` never runs, because the format parser
splits `user[name]` before the lookup. -/
theorem C4_nested_lookup :
    (apply_activity_mapping cfgNestedUA [("user", .dict [("name", .str "Bob")])]
        "jellystat" "activity").2 = .ok [("title", .str "Bob")] ∧
    (apply_activity_mapping cfgNestedUA [("user", .none)]
        "jellystat" "activity").2 = .error .typeError ∧
    (apply_activity_mapping cfgNestedUA [] "jellystat" "activity").2
        = .error .typeError := by
  exact ⟨rfl, rfl, rfl⟩

/-! ### Claim C5 -/

/-- Every value produced by the template loop is a `.strip(' -')`-stripped
string of some raw substitution result. -/
theorem evalTemplates_values_stripped (kind : SafeKind) (d : PyDict)
    (ts : List (String × String)) (out : PyDict)
    (h : evalTemplates kind d ts = .ok out) :
    ∀ kv ∈ out, ∃ raw, kv.2 = .str (stripDashSpace raw) := by
  induction ts generalizing out with
  | nil =>
      simp only [evalTemplates] at h
      cases h
      intro kv hkv; cases hkv
  | cons p rest ih =>
      simp only [evalTemplates, bind, Except.bind] at h
      revert h
      cases hf : formatMap kind d p.2 with
      | error e => intro h; cases h
      | ok s =>
          cases he : evalTemplates kind d rest with
          | error e => intro h; cases h
          | ok out' =>
              intro h
              cases h
              intro kv hkv
              rcases List.mem_cons.mp hkv with h0 | h1
              · exact ⟨s, by rw [h0]⟩
              · exact ih out' he kv h1

/-- Claim C5: a placeholder absent from the record substitutes to the empty
string (for both SafeDict variants, given a bracket-free field name); every
value produced through templates is stripped of leading/trailing space and
`-` characters; and concretely `\x7ba\x7d - \x7bb\x7d` on a record holding
only `a = "X"` yields exactly `"X"`, not `"X - "`. -/
theorem C5_missing_empty_and_stripped
    (d : PyDict) (base : String) (mappings : Mappings) (item : PyDict)
    (source media_type : String) :
    (dlookup d base = Option.none → base.data.contains '[' = false →
      evalTItem .simple d (.field base []) = .ok "" ∧
      evalTItem .nested d (.field base []) = .ok "") ∧
    (∀ tm ts out, lookupRA mappings source media_type = some tm →
      tm.templates = some ts →
      (apply_mapping mappings item source media_type).2 = .ok out →
      ∀ kv ∈ out, ∃ raw, kv.2 = .str (stripDashSpace raw)) ∧
    (apply_mapping cfgAB [("a", .str "X")] "tautulli" "movie").2
      = .ok [("title", .str "X")] := by
  refine ⟨?_, ?_, rfl⟩
  · intro hmiss hbr
    constructor
    · simp [evalTItem, getValue, hmiss, safeMissing, pyStr]
    · simp only [evalTItem, getValue, hmiss, safeMissing, missingNested, hbr]
      simp [pyStr]
  · intro tm ts out hl htm hout
    simp only [apply_mapping, hl, htm] at hout
    exact evalTemplates_values_stripped _ _ _ _ hout

/-- Witness for C5: the general parts applied at a concrete record and the
default mapping configuration. -/
theorem C5_witness :
    evalTItem .nested [("a", Value.str "X")] (.field "b" []) = .ok "" ∧
    ∀ kv ∈ [("title", Value.str (stripDashSpace "The Matrix"))],
      ∃ raw, kv.2 = Value.str (stripDashSpace raw) := by
  have h := C5_missing_empty_and_stripped [("a", Value.str "X")] "b" defaultMappings
    [("Name", Value.str "The Matrix")] "jellystat" "Movie"
  refine ⟨(h.1 (by rfl) (by rfl)).2, ?_⟩
  exact h.2.1 _ _ _ rfl rfl rfl

/-! ### Claims C2 and C3 -/

/-- Claim C2: in a poll cycle where `fetch_state()` fails (None) or returns
a value equal to the last-known signature, `fetch_all()` is not invoked and
the cached snapshot and signature are unchanged; conversely, whenever
`fetch_all()` is invoked in a cycle the freshly fetched state was truthy
and differed from the last-known one. -/
theorem C2_fetch_only_on_change (fs : Option StateSig) (fa : Except Unit SourceData)
    (st : LoopState) :
    ((fs = Option.none ∨ ∃ cur, fs = some cur ∧ sigEq (some cur) st.lastState = true) →
      updateCacheStep fs fa st = (st, false)) ∧
    (∀ st', updateCacheStep fs fa st = (st', true) →
      ∃ cur, fs = some cur ∧ ¬ cur.isEmpty ∧ sigEq (some cur) st.lastState = false) := by
  constructor
  · rintro (hn | ⟨cur, hc, heq⟩)
    · subst hn; rfl
    · subst hc
      simp only [updateCacheStep, heq]
      simp
  · intro st' hstep
    cases fs with
    | none => simp only [updateCacheStep] at hstep; cases hstep
    | some cur =>
        refine ⟨cur, rfl, ?_⟩
        simp only [updateCacheStep] at hstep
        by_cases hcond : ¬ cur.isEmpty ∧ ¬ sigEq (some cur) st.lastState
        · rw [if_pos hcond] at hstep
          exact ⟨hcond.1, by simpa using hcond.2⟩
        · rw [if_neg hcond] at hstep
          cases hstep

/-- Witness for C2: a cycle whose fetched state equals the last-known
signature leaves everything unchanged and does not invoke the fetcher. -/
theorem C2_witness :
    updateCacheStep (some [("1", 5)]) (.ok [])
        { lastState := some [("1", 5)], cacheData := Option.none }
      = ({ lastState := some [("1", 5)], cacheData := Option.none }, false) := by
  exact (C2_fetch_only_on_change (some [("1", 5)]) (.ok [])
    { lastState := some [("1", 5)], cacheData := Option.none }).1
    (Or.inr ⟨[("1", 5)], rfl, by rfl⟩)

/-- Claim C3: in a cycle where a truthy state differing from the last-known
signature was fetched, a successful `fetch_all()` replaces the cached
snapshot and updates the signature in one step, while a raising
`fetch_all()` leaves both the snapshot and the signature unchanged (the
loop continues: the step still yields a state). -/
theorem C3_snapshot_replacement (cur : StateSig) (fa : Except Unit SourceData)
    (st : LoopState) (hne : ¬ cur.isEmpty)
    (hdiff : sigEq (some cur) st.lastState = false) :
    (∀ d, fa = .ok d →
      updateCacheStep (some cur) fa st =
        ({ lastState := some cur, cacheData := some d }, true)) ∧
    (∀ e, fa = .error e → updateCacheStep (some cur) fa st = (st, true)) := by
  have hcond : ¬ cur.isEmpty ∧ ¬ sigEq (some cur) st.lastState = true := by
    exact ⟨hne, by simp [hdiff]⟩
  constructor
  · intro d hd
    subst hd
    simp only [updateCacheStep]
    rw [if_pos (by simpa using hcond)]
  · intro e he
    subst he
    simp only [updateCacheStep]
    rw [if_pos (by simpa using hcond)]

/-- Witness for C3: a change-detected cycle with a failing fetch keeps the
previous snapshot and signature. -/
theorem C3_witness :
    updateCacheStep (some [("1", 6)]) (.error ())
        { lastState := some [("1", 5)], cacheData := some [("Movies", ⟨[], []⟩)] }
      = ({ lastState := some [("1", 5)], cacheData := some [("Movies", ⟨[], []⟩)] }, true) := by
  exact (C3_snapshot_replacement [("1", 6)] (.error ())
    { lastState := some [("1", 5)], cacheData := some [("Movies", ⟨[], []⟩)] }
    (by decide) (by rfl)).2 () rfl

/-! ### Claim C9 -/

/-- Claim C9, counterexample: a request naming an unconfigured source
(`plex` with only `tautulli` cached) receives 503 from both endpoints, the
same status as a not-yet-primed cache, not a 4xx client error — the two
conditions are not distinguishable by status code. -/
theorem C9_counterexample :
    (getCounts [("tautulli", [])] (some "plex")).1 = 503 ∧
    (getAdded defaultMappings (fun _ => 0) [("tautulli", [])] (some "plex") 15).1 = 503 ∧
    ¬ (400 ≤ 503 ∧ 503 < 500) := by
  exact ⟨rfl, rfl, by omega⟩

/-- Claim C9 (amended): a missing or empty `source` parameter receives 400
with an error body from both cached read endpoints; any source with no
cache entry — whether unknown/unconfigured or configured but not yet
primed — receives 503 with an error body; the two 503 conditions share a
status code. -/
theorem C9_status_codes (mappings : Mappings) (parseIso : String → Int)
    (cache : List (String × SourceData)) (s : String) (count : Nat) :
    getCounts cache Option.none = (400, .err "A 'source' query parameter is required.") ∧
    getAdded mappings parseIso cache Option.none count
      = (400, .err "A 'source' query parameter is required.") ∧
    getCounts cache (some "") = (400, .err "A 'source' query parameter is required.") ∧
    getAdded mappings parseIso cache (some "") count
      = (400, .err "A 'source' query parameter is required.") ∧
    (s ≠ "" → dlookup cache s = Option.none →
      getCounts cache (some s)
          = (503, .err "Service is starting, data is being cached. Please try again.") ∧
      getAdded mappings parseIso cache (some s) count
          = (503, .err "Service is starting, data is being cached. Please try again.")) := by
  refine ⟨rfl, rfl, rfl, rfl, ?_⟩
  intro hs hmiss
  constructor
  · simp only [getCounts]
    rw [if_neg hs, hmiss]
  · simp only [getAdded]
    rw [if_neg hs, hmiss]

/-- Witness for C9: the unprimed-cache branch at a concrete configured
source name. -/
theorem C9_witness :
    getCounts [] (some "tautulli")
      = (503, .err "Service is starting, data is being cached. Please try again.") := by
  exact ((C9_status_codes [] (fun _ => 0) [] "tautulli" 15).2.2.2.2
    (by decide) rfl).1

/-! ### Claim C8 -/

theorem setItems_lookup_self (d : SourceData) (k : String) (items : List PyDict) :
    dlookup (setItems d k items) k
      = (dlookup d k).map (fun e => { e with items := items }) := by
  induction d with
  | nil => rfl
  | cons p rest ih =>
      obtain ⟨a, e⟩ := p
      by_cases hp : a = k
      · simp only [setItems]
        rw [if_pos hp]
        simp only [dlookup]
        rw [if_pos hp, if_pos hp]
        rfl
      · simp only [setItems]
        rw [if_neg hp]
        simp only [dlookup]
        rw [if_neg hp, if_neg hp]
        exact ih

theorem setItems_lookup_ne (d : SourceData) (k k' : String) (items : List PyDict)
    (h : k' ≠ k) : dlookup (setItems d k items) k' = dlookup d k' := by
  induction d with
  | nil => rfl
  | cons p rest ih =>
      obtain ⟨a, e⟩ := p
      by_cases hp : a = k
      · have ha : a ≠ k' := by rw [hp]; exact Ne.symm h
        simp only [setItems]
        rw [if_pos hp]
        simp only [dlookup]
        rw [if_neg ha, if_neg ha]
        exact ih
      · simp only [setItems]
        rw [if_neg hp]
        simp only [dlookup]
        by_cases hk : a = k'
        · rw [if_pos hk, if_pos hk]
        · rw [if_neg hk, if_neg hk]
          exact ih

theorem mapME_error_unit {α β : Type} (f : α → Except Unit β) (l : List α) (x : α)
    (hx : x ∈ l) (hf : f x = .error ()) : mapME f l = .error () := by
  induction l with
  | nil => cases hx
  | cons a rest ih =>
      rcases List.mem_cons.mp hx with h0 | h1
      · subst h0
        simp [mapME, hf]
      · simp only [mapME]
        cases ha : f a with
        | error e => cases e; rfl
        | ok b => rw [ih h1]

/-- The Jellystat base-building fold leaves keys that are no library's name
untouched. -/
theorem jellyBase_fold_preserve (stats : List JellyStatRow) (libs : List JellyLib)
    (acc : SourceData) (k : String) (h : ∀ lib ∈ libs, lib.name ≠ k) :
    dlookup (libs.foldl
      (fun d lib =>
        if lib.name ≠ "" then dictSet d lib.name ⟨[], jellyCountsFor stats lib⟩ else d)
      acc) k = dlookup acc k := by
  induction libs generalizing acc with
  | nil => rfl
  | cons l rest ih =>
      simp only [List.foldl_cons]
      rw [ih _ (fun x hx => h x (List.mem_cons_of_mem _ hx))]
      by_cases hl : l.name ≠ ""
      · rw [if_pos hl, dlookup_dictSet_ne _ _ _ _ (Ne.symm (h l (List.mem_cons_self _ _)))]
      · rw [if_neg hl]

theorem jellyBase_fold_mem (stats : List JellyStatRow) (libs : List JellyLib)
    (acc : SourceData) (lib : JellyLib) (hmem : lib ∈ libs) (hname : lib.name ≠ "")
    (hnd : (libs.map JellyLib.name).Nodup) :
    dlookup (libs.foldl
      (fun d lib =>
        if lib.name ≠ "" then dictSet d lib.name ⟨[], jellyCountsFor stats lib⟩ else d)
      acc) lib.name = some ⟨[], jellyCountsFor stats lib⟩ := by
  induction libs generalizing acc with
  | nil => cases hmem
  | cons l rest ih =>
      simp only [List.map_cons, List.nodup_cons] at hnd
      rcases List.mem_cons.mp hmem with h0 | h1
      · subst h0
        simp only [List.foldl_cons, if_pos hname]
        rw [jellyBase_fold_preserve stats rest _ lib.name
          (fun x hx hxe => hnd.1 (hxe ▸ List.mem_map_of_mem JellyLib.name hx))]
        exact dlookup_dictSet_self _ _ _
      · simp only [List.foldl_cons]
        exact ih _ h1 hnd.2

/-- The item-assignment fold of the Jellystat fetcher leaves keys that name
no result row untouched. -/
theorem itemsFold_preserve (rs : List (String × List PyDict)) (acc : SourceData)
    (k : String) (h : ∀ p ∈ rs, p.1 ≠ k) :
    dlookup (rs.foldl
      (fun d p => if (dlookup d p.1).isSome ∧ ¬ p.2.isEmpty then setItems d p.1 p.2 else d)
      acc) k = dlookup acc k := by
  induction rs generalizing acc with
  | nil => rfl
  | cons r rest ih =>
      simp only [List.foldl_cons]
      rw [ih _ (fun x hx => h x (List.mem_cons_of_mem _ hx))]
      by_cases hc : (dlookup acc r.1).isSome ∧ ¬ r.2.isEmpty
      · rw [if_pos hc, setItems_lookup_ne _ _ _ _ (Ne.symm (h r (List.mem_cons_self _ _)))]
      · rw [if_neg hc]

theorem itemsFold_mem (rs : List (String × List PyDict)) (acc : SourceData)
    (name : String) (items : List PyDict) (e : PyDict)
    (hnd : (rs.map Prod.fst).Nodup) (hmem : (name, items) ∈ rs)
    (hacc : dlookup acc name = some ⟨[], e⟩) :
    dlookup (rs.foldl
      (fun d p => if (dlookup d p.1).isSome ∧ ¬ p.2.isEmpty then setItems d p.1 p.2 else d)
      acc) name = some ⟨items, e⟩ := by
  induction rs generalizing acc with
  | nil => cases hmem
  | cons r rest ih =>
      simp only [List.map_cons, List.nodup_cons] at hnd
      rcases List.mem_cons.mp hmem with h0 | h1
      · have hr1 : r.1 = name := by rw [← h0]
        have hr2 : r.2 = items := by rw [← h0]
        simp only [List.foldl_cons]
        have hpres : ∀ p ∈ rest, p.1 ≠ name := by
          intro p hp hpe
          exact hnd.1 (hr1 ▸ hpe ▸ List.mem_map_of_mem Prod.fst hp)
        rw [itemsFold_preserve rest _ name hpres]
        by_cases hempty : r.2.isEmpty
        · rw [if_neg (by simp [hempty])]
          have hit : items = [] := by
            rw [← hr2]
            exact List.isEmpty_iff.mp hempty
          rw [hit]
          exact hacc
        · rw [if_pos ⟨by rw [hr1, hacc]; rfl, hempty⟩, hr1, hr2,
            setItems_lookup_self, hacc]
          rfl
      · simp only [List.foldl_cons]
        have hne : r.1 ≠ name := by
          intro hpe
          exact hnd.1 (hpe ▸ List.mem_map_of_mem Prod.fst h1)
        have hacc' : dlookup
            (if (dlookup acc r.1).isSome ∧ ¬ r.2.isEmpty then setItems acc r.1 r.2 else acc)
            name = some ⟨[], e⟩ := by
          by_cases hc : (dlookup acc r.1).isSome ∧ ¬ r.2.isEmpty
          · rw [if_pos hc, setItems_lookup_ne _ _ _ _ (Ne.symm hne)]
            exact hacc
          · rw [if_neg hc]
            exact hacc
        exact ih _ hnd.2 h1 hacc'

theorem fetchAllJellystat_lookup (libs : List JellyLib) (stats : List JellyStatRow)
    (f : JellyLib → Except Unit (List PyDict)) (lib : JellyLib)
    (hmem : lib ∈ libs) (hname : lib.name ≠ "")
    (hnd : (libs.map JellyLib.name).Nodup) :
    dlookup (fetchAllJellystat libs stats f) lib.name
      = some ⟨jellyItemsFor f lib, jellyCountsFor stats lib⟩ := by
  unfold fetchAllJellystat jellyBase
  have hbase := jellyBase_fold_mem stats libs [] lib hmem hname hnd
  have hnd' : ((libs.map (fun lib => (lib.name, jellyItemsFor f lib))).map Prod.fst).Nodup := by
    rw [List.map_map]
    exact hnd
  have hmem' : (lib.name, jellyItemsFor f lib)
      ∈ libs.map (fun lib => (lib.name, jellyItemsFor f lib)) :=
    List.mem_map_of_mem _ hmem
  exact itemsFold_mem _ _ _ _ _ hnd' hmem' hbase

theorem absRowFor_shape (f : AbsFetch) (lib : AbsLib) (hname : lib.name ≠ "") :
    absRowFor f lib = some (lib.name, (absEntryFor f lib).items, (absEntryFor f lib).counts) := by
  unfold absRowFor absEntryFor
  rw [if_neg hname]
  cases f lib with
  | ok t => rcases t with ⟨ti, ta, items⟩; rfl
  | error e => rfl

theorem absFold_preserve (f : AbsFetch) (libs : List AbsLib) (acc : SourceData)
    (k : String) (h : ∀ lib ∈ libs, lib.name ≠ k) :
    dlookup (libs.foldl
      (fun d lib =>
        match absRowFor f lib with
        | Option.none => d
        | some (name, items, counts) => dictSet d name ⟨items, counts⟩) acc) k
      = dlookup acc k := by
  induction libs generalizing acc with
  | nil => rfl
  | cons l rest ih =>
      simp only [List.foldl_cons]
      rw [ih _ (fun x hx => h x (List.mem_cons_of_mem _ hx))]
      by_cases hl : l.name = ""
      · have : absRowFor f l = Option.none := by unfold absRowFor; rw [if_pos hl]
        rw [this]
      · rw [absRowFor_shape f l hl]
        exact dlookup_dictSet_ne _ _ _ _ (Ne.symm (h l (List.mem_cons_self _ _)))

theorem absFold_mem (f : AbsFetch) (libs : List AbsLib) (acc : SourceData)
    (lib : AbsLib) (hmem : lib ∈ libs) (hname : lib.name ≠ "")
    (hnd : (libs.map AbsLib.name).Nodup) :
    dlookup (libs.foldl
      (fun d lib =>
        match absRowFor f lib with
        | Option.none => d
        | some (name, items, counts) => dictSet d name ⟨items, counts⟩) acc) lib.name
      = some (absEntryFor f lib) := by
  induction libs generalizing acc with
  | nil => cases hmem
  | cons l rest ih =>
      simp only [List.map_cons, List.nodup_cons] at hnd
      rcases List.mem_cons.mp hmem with h0 | h1
      · subst h0
        simp only [List.foldl_cons]
        rw [absFold_preserve f rest _ lib.name
          (fun x hx hxe => hnd.1 (hxe ▸ List.mem_map_of_mem AbsLib.name hx))]
        rw [absRowFor_shape f lib hname]
        exact dlookup_dictSet_self _ _ _
      · simp only [List.foldl_cons]
        exact ih _ h1 hnd.2

theorem fetchAllAudiobookshelf_lookup (libs : List AbsLib) (f : AbsFetch) (lib : AbsLib)
    (hmem : lib ∈ libs) (hname : lib.name ≠ "")
    (hnd : (libs.map AbsLib.name).Nodup) :
    dlookup (fetchAllAudiobookshelf libs f) lib.name = some (absEntryFor f lib) := by
  unfold fetchAllAudiobookshelf
  exact absFold_mem f libs [] lib hmem hname hnd

/-- Claim C8, counterexample: in the Tautulli fetcher a per-library
exception is NOT isolated — with the Movies fetch raising and the Shows
fetch succeeding, the whole `fetch_all` raises and no library's items or
counts are produced (the claim asserts the other libraries would still be). -/
theorem C8_counterexample :
    fetchAllTautulli [tlibMovies, tlibShows]
      (fun lib => if lib.section_id = "1" then .error () else .ok [[("title", .str "ok")]])
      = .error () := by rfl

/-- Claim C8 (amended): per-library failure isolation holds for the
Jellystat and Audiobookshelf fetchers — a failing library degrades to an
empty item list while every other (distinctly, truthily named) library's
items and counts are still produced — but not for the Tautulli fetcher,
where one library's failure makes the whole `fetch_all` raise. -/
theorem C8_per_library_isolation :
    (∀ (libs : List TautLib) (f : TautLib → Except Unit (List PyDict)) (lib : TautLib),
        lib ∈ libs → f lib = .error () → fetchAllTautulli libs f = .error ()) ∧
    (∀ (libs : List JellyLib) (stats : List JellyStatRow)
        (f : JellyLib → Except Unit (List PyDict)) (lib : JellyLib),
        lib ∈ libs → lib.name ≠ "" → (libs.map JellyLib.name).Nodup →
        dlookup (fetchAllJellystat libs stats f) lib.name
          = some ⟨jellyItemsFor f lib, jellyCountsFor stats lib⟩) ∧
    (∀ (libs : List AbsLib) (f : AbsFetch) (lib : AbsLib),
        lib ∈ libs → lib.name ≠ "" → (libs.map AbsLib.name).Nodup →
        dlookup (fetchAllAudiobookshelf libs f) lib.name = some (absEntryFor f lib)) := by
  refine ⟨?_, fetchAllJellystat_lookup, fetchAllAudiobookshelf_lookup⟩
  intro libs f lib hmem hf
  have hmap : mapME
      (fun lib => (f lib).map (fun items => (lib.section_name, items))) libs
      = .error () := by
    apply mapME_error_unit _ _ lib hmem
    rw [hf]
    rfl
  unfold fetchAllTautulli
  simp only [bind, Except.bind, hmap]

/-- Witness for C8: a concrete two-library Jellystat run where LibA's fetch
raises and LibB's succeeds — LibA degrades to an empty item list and LibB's
items and counts are produced. -/
theorem C8_witness :
    dlookup (fetchAllJellystat [⟨"1", "LibA"⟩, ⟨"2", "LibB"⟩]
        [⟨"2", "movies", .int 3, .none, .none⟩]
        (fun lib => if lib.name = "LibA" then .error () else .ok [[("Name", .str "x")]]))
      "LibA" = some ⟨[], []⟩ ∧
    dlookup (fetchAllJellystat [⟨"1", "LibA"⟩, ⟨"2", "LibB"⟩]
        [⟨"2", "movies", .int 3, .none, .none⟩]
        (fun lib => if lib.name = "LibA" then .error () else .ok [[("Name", .str "x")]]))
      "LibB" = some ⟨[[("Name", .str "x")]], [("Movies", .int 3)]⟩ := by
  have hA := C8_per_library_isolation.2.1 [⟨"1", "LibA"⟩, ⟨"2", "LibB"⟩]
    [⟨"2", "movies", .int 3, .none, .none⟩]
    (fun lib => if lib.name = "LibA" then .error () else .ok [[("Name", .str "x")]])
    ⟨"1", "LibA"⟩ (by simp) (by decide) (by simp)
  have hB := C8_per_library_isolation.2.1 [⟨"1", "LibA"⟩, ⟨"2", "LibB"⟩]
    [⟨"2", "movies", .int 3, .none, .none⟩]
    (fun lib => if lib.name = "LibA" then .error () else .ok [[("Name", .str "x")]])
    ⟨"2", "LibB"⟩ (by simp) (by decide) (by simp)
  exact ⟨hA, hB⟩

/-! ### Claim C7 -/

/-- Claim C7, counterexample: the no-mapping fallback uses `.get`-with-
default chains keyed on key presence, not the claimed truthiness
`or`-chains — on a record with `LastWatched = ""` and `Name = "Song"` the
code returns title `""` while the claim's `or`-chain gives `"Song"`. -/
theorem C7_counterexample :
    (apply_activity_mapping [] c7record "jellystat" "activity").2
      = .ok [("title", .str ""), ("user", .str "Bob")] ∧
    uaFallbackSpec c7record = [("title", .str "Song"), ("user", .str "Bob")] ∧
    Value.str "" ≠ Value.str "Song" := by
  refine ⟨rfl, rfl, by simp⟩

theorem replace_last_played (x : String) :
    pyReplace "last_played_activity" "_activity" ("_" ++ x) = "last_played_" ++ x := by
  cases x with
  | mk cs =>
      show String.mk _ = String.mk _
      simp [pyReplace, replaceGo, dropPrefix?, String.append]

/-- Claim C7 (amended): the media type comes from the record's
`media_type`/`Type` field, with the series-name heuristic applied for the
jellystat source when that is falsy; the composite key is
`activity_<type>` for now-playing and `last_played_<type>` for history;
and when no TypeMapping is found under that key, resolution returns the
`.get`-with-default (key-presence) chains
`\x7btitle: LastWatched / Name / title / "", user: UserName / user / ""\x7d`. -/
theorem C7_activity_key_and_fallback (mappings : Mappings) (item : PyDict)
    (source sub_type : String) :
    (activityKey (activityMediaType item source) "activity"
      = "activity_" ++ pyStr (activityMediaType item source)) ∧
    (activityKey (activityMediaType item source) "last_played_activity"
      = "last_played_" ++ pyStr (activityMediaType item source)) ∧
    (source = "jellystat" →
      pyTruthy (pyOr (pyGetD item "media_type" .none) (pyGetD item "Type" .none)) = false →
      activityMediaType item source
        = (if pyTruthy (pyGetD item "SeriesName" .none) then .str "Episode" else .str "Movie")) ∧
    (lookupUA mappings source (activityKey (activityMediaType item source) sub_type)
        = Option.none →
      (apply_activity_mapping mappings item source sub_type).2 = .ok (uaFallback item)) := by
  refine ⟨rfl, ?_, ?_, ?_⟩
  · unfold activityKey
    rw [if_neg (by decide)]
    exact replace_last_played _
  · intro hsrc hfalsy
    unfold activityMediaType
    rw [if_pos ⟨hsrc, by simp [hfalsy]⟩]
  · intro hnone
    simp only [apply_activity_mapping]
    rw [hnone]

/-- Witness for C7: the claim's own example record, with an empty mapping
configuration so no TypeMapping is found. -/
theorem C7_witness :
    (apply_activity_mapping [] [("Name", Value.str "Song"), ("UserName", Value.str "Bob")]
        "jellystat" "activity").2
      = .ok [("title", Value.str "Song"), ("user", Value.str "Bob")] := by
  exact (C7_activity_key_and_fallback []
    [("Name", Value.str "Song"), ("UserName", Value.str "Bob")] "jellystat" "activity").2.2.2 rfl

/-! ### Claim C6 -/

/-- Claim C6 (code bug): the recently-added read path does not return items
whose `title` is a string — each processor stores the whole dict returned
by `apply_mapping` under `title`, so a cached Jellystat movie named
"The Matrix" under the default mappings comes back from `/api/added` as
`title = \x7b'title': 'The Matrix'\x7d` (an object), contradicting the
endpoint's own Swagger schema (`AddedItem.title : string`). -/
theorem C6_title_is_dict_not_string :
    getAdded defaultMappings (fun _ => 0)
      [("jellystat",
        [("Movies", ⟨[[("Name", .str "The Matrix"), ("Type", .str "Movie")]],
          [("Movies", .int 1)]⟩)])]
      (some "jellystat") 15
    = (200, .addedB [("Movies",
        [[("title", .dict [("title", .str "The Matrix")]), ("added_at", .int 0)]])]) := by
  rfl

end ToolBox
